import Mathlib

/-!
Verification development for the `delta-sharing-client-rs` repository.

The definitions below are a shallow embedding of the Rust source:

* `src/error.rs`      — `ErrorKind`, `DeltaSharingError` and its constructors;
* `src/client.rs`     — `handle_response`, `get_share`, the aggregating list
  operations, `get_table_version_raw`, and the `From<reqwest::Error>` impl;
* `src/request/pagination.rs` — `Pagination`;
* `src/profile.rs`    — `BearerToken.has_expired`, `Profile::new_bearer_token`
  and the endpoint-parsing part of `Profile::try_from_path`;
* `src/response/mod.rs` — `ListResponse`, `GetShareResponse`.

HTTP status codes are embedded as `Nat`, instants as `Int` (signed timestamps),
bodies as `String`, and the JSON deserializers of the `serde` collaborator as
abstract functions `String → Option _` supplied as parameters.  A Rust function
that can panic is embedded with result type `RustOutcome`.
-/

namespace DeltaSharing

/-- Embedding of `ErrorKind` from `src/error.rs` (statuses as `Nat`). -/
inductive ErrorKind where
  | Internal : ErrorKind
  | Profile : ErrorKind
  | Request : ErrorKind
  | ClientError (status : Nat) (code : String) : ErrorKind
  | ServerError (status : Nat) (code : String) : ErrorKind
  | ParseResponse : ErrorKind
deriving DecidableEq, Repr

/-- Embedding of `DeltaSharingError` from `src/error.rs`. -/
structure DeltaSharingError where
  kind : ErrorKind
  message : String
deriving DecidableEq, Repr

namespace DeltaSharingError

/-- Embedding of `DeltaSharingError::new`. -/
def new (kind : ErrorKind) (message : String) : DeltaSharingError :=
  ⟨kind, message⟩

/-- Embedding of `DeltaSharingError::is_not_found`: kind matches `ClientError { status: NOT_FOUND, .. }`. -/
def is_not_found (e : DeltaSharingError) : Bool :=
  match e.kind with
  | .ClientError status _ => status = 404
  | _ => false

/-- Embedding of `DeltaSharingError::internal`. -/
def internal (message : String) : DeltaSharingError := new .Internal message

/-- Embedding of `DeltaSharingError::request`. -/
def request (message : String) : DeltaSharingError := new .Request message

/-- Embedding of `DeltaSharingError::profile`. -/
def profile (message : String) : DeltaSharingError := new .Profile message

/-- Embedding of `DeltaSharingError::client`. -/
def client (status : Nat) (code : String) (message : String) : DeltaSharingError :=
  new (.ClientError status code) message

/-- Embedding of `DeltaSharingError::server`. -/
def server (status : Nat) (code : String) (message : String) : DeltaSharingError :=
  new (.ServerError status code) message

/-- Embedding of `DeltaSharingError::parse_response`. -/
def parse_response (message : String) : DeltaSharingError := new .ParseResponse message

end DeltaSharingError

/-- Embedding of `Result<T>` from `src/lib.rs`: `std::result::Result<T, DeltaSharingError>`. -/
abbrev Result (T : Type) := Except DeltaSharingError T

/-- The error envelope `ErrorResponse` from `src/response/mod.rs`
(`{errorCode, message}`). -/
structure ErrorResponse where
  error_code : String
  message : String
deriving DecidableEq, Repr

/-- An HTTP response as `handle_response` observes it: a status code and a raw
body.  (Headers are added separately where needed.) -/
structure HttpResponse where
  status : Nat
  body : String
deriving DecidableEq, Repr

/-- Embedding of the shared response classifier `handle_response` from
`src/client.rs` (lines 472–510).  The `serde` deserializers for the expected
success payload `T` and for the error envelope are the abstract collaborators
`parseT` and `parseErr`; `none` is a deserialization failure. -/
def handle_response {T : Type} (parseT : String → Option T)
    (parseErr : String → Option ErrorResponse) (response : HttpResponse) :
    Result T :=
  if response.status = 200 then
    match parseT response.body with
    | some res => .ok res
    | none => .error (DeltaSharingError.parse_response "failed to parse server response")
  else if response.status ∈ [400, 401, 403, 404] then
    match parseErr response.body with
    | some err =>
      .error (DeltaSharingError.client response.status err.error_code err.message)
    | none => .error (DeltaSharingError.parse_response "failed to parse server response")
  else if response.status = 500 then
    match parseErr response.body with
    | some err =>
      .error (DeltaSharingError.server response.status err.error_code err.message)
    | none => .error (DeltaSharingError.parse_response "failed to parse server response")
  else .error (DeltaSharingError.internal "unknown server response")

/-- Embedding of `Share` from `src/response/mod.rs`. -/
structure Share where
  id : Option String
  name : String
deriving DecidableEq, Repr

/-- Embedding of `Schema` from `src/response/mod.rs`. -/
structure Schema where
  name : String
  share : String
deriving DecidableEq, Repr

/-- Embedding of `Table` from `src/response/mod.rs`. -/
structure Table where
  name : String
  schema : String
  share : String
  share_id : Option String
  id : Option String
deriving DecidableEq, Repr

/-- Embedding of `GetShareResponse` from `src/response/mod.rs`. -/
structure GetShareResponse where
  share : Share
deriving DecidableEq, Repr

/-- Embedding of `DeltaSharingClient::get_share` (`src/client.rs`, lines
44–52): the result of the underlying single-page fetch `get_share_raw` is
taken as input, and the match on it is the body of `get_share`. -/
def get_share (res : Result GetShareResponse) : Result (Option Share) :=
  match res with
  | .ok r => .ok (some r.share)
  | .error e => if e.is_not_found then .ok none else .error e

/-- Embedding of `Pagination` from `src/request/pagination.rs`. -/
structure Pagination where
  max_results : Option Nat
  page_token : Option String
  is_start : Bool
deriving DecidableEq, Repr

namespace Pagination

/-- Embedding of `Pagination::new`. -/
def new (max_results : Option Nat) (page_token : Option String) (is_start : Bool) :
    Pagination :=
  ⟨max_results, page_token, is_start⟩

/-- Embedding of `Pagination::from_start`. -/
def from_start (max_results : Option Nat) : Pagination := new max_results none true

/-- Embedding of `Pagination::from_token`. -/
def from_token (max_results : Option Nat) (page_token : String) : Pagination :=
  new max_results (some page_token) false

/-- Embedding of `Pagination::set_page_token`: clears `is_start` and stores the token. -/
def set_page_token (p : Pagination) (token : Option String) : Pagination :=
  { p with is_start := false, page_token := token }

/-- Embedding of `Pagination::has_next_page`:
`self.is_start || (self.page_token.is_some() && self.page_token.as_deref() != Some(""))`. -/
def has_next_page (p : Pagination) : Bool :=
  p.is_start || (p.page_token.isSome && (p.page_token != some ""))

/-- Embedding of `Pagination::is_finished`. -/
def is_finished (p : Pagination) : Bool := !p.has_next_page

end Pagination

/-- Embedding of `Default for Pagination`: `Self::new(None, None, true)`. -/
def Pagination.default : Pagination := Pagination.new none none true

/-- Embedding of `ListResponse<T>` from `src/response/mod.rs`: items plus an optional next
page token. -/
structure ListResponse (T : Type) where
  items : List T
  next_page_token : Option String
deriving DecidableEq, Repr

/-- Embedding of the aggregation `while` loop shared by `list_shares`,
`list_schemas`, `list_tables_in_share` and `list_tables_in_schema`
(`src/client.rs`, lines 32–94).  The single-page fetch (`*_raw`, with the
resource names captured) is the abstract collaborator `fetch`.  `fuel` bounds
the number of loop-condition checks: `none` means the loop is still running
after that many, `some r` that the method returned `r`. -/
def aggregate_loop {T : Type} (fetch : Pagination → Result (ListResponse T)) :
    Nat → Pagination → List T → Option (Result (List T))
  | 0, _, _ => none
  | fuel + 1, pagination, acc =>
    if pagination.is_finished then some (.ok acc)
    else
      match fetch pagination with
      | .error e => some (.error e)
      | .ok response =>
        aggregate_loop fetch fuel
          (pagination.set_page_token response.next_page_token)
          (acc ++ response.items)

/-- An aggregating list operation: the loop started from `Pagination::default()`
with an empty accumulator, exactly as each of the four methods does. -/
def aggregate {T : Type} (fetch : Pagination → Result (ListResponse T))
    (fuel : Nat) : Option (Result (List T)) :=
  aggregate_loop fetch fuel Pagination.default []

/-- Embedding of `DeltaSharingClient::list_shares` over an abstract `list_shares_raw`. -/
def list_shares (fetch : Pagination → Result (ListResponse Share)) (fuel : Nat) :
    Option (Result (List Share)) :=
  aggregate fetch fuel

/-- Embedding of `DeltaSharingClient::list_schemas` over an abstract `list_schemas_raw`
(the share name is captured in `fetch`). -/
def list_schemas (fetch : Pagination → Result (ListResponse Schema)) (fuel : Nat) :
    Option (Result (List Schema)) :=
  aggregate fetch fuel

/-- Embedding of `DeltaSharingClient::list_tables_in_share` over an abstract
`list_tables_in_share_raw`. -/
def list_tables_in_share (fetch : Pagination → Result (ListResponse Table))
    (fuel : Nat) : Option (Result (List Table)) :=
  aggregate fetch fuel

/-- Embedding of `DeltaSharingClient::list_tables_in_schema` over an abstract
`list_tables_in_schema_raw`. -/
def list_tables_in_schema (fetch : Pagination → Result (ListResponse Table))
    (fuel : Nat) : Option (Result (List Table)) :=
  aggregate fetch fuel

/-- Relation `runs_to fetch p ps q`: starting the loop at cursor `p`, the server answers
the successive page requests with the successful pages `ps` in fetch order,
leaving the cursor at `q`. -/
def runs_to {T : Type} (fetch : Pagination → Result (ListResponse T)) :
    Pagination → List (ListResponse T) → Pagination → Prop
  | p, [], q => p = q
  | p, page :: rest, q =>
    p.is_finished = false ∧ fetch p = .ok page ∧
      runs_to fetch (p.set_page_token page.next_page_token) rest q

/-- A malfunctioning server: every page is empty with a non-empty next page
token, so the listing never completes. -/
def adversarial_fetch : Pagination → Result (ListResponse Share) :=
  fun _ => .ok ⟨[], some "more"⟩

/-- A concrete two-page server: the start cursor yields shares "A" and "B"
with next token "t1"; any later cursor yields share "C" with an empty token. -/
def two_page_fetch : Pagination → Result (ListResponse Share) :=
  fun p =>
    if p.is_start then .ok ⟨[⟨none, "A"⟩, ⟨none, "B"⟩], some "t1"⟩
    else .ok ⟨[⟨none, "C"⟩], some ""⟩

/-- Outcome of running a Rust function that may panic (`todo!()`, `unwrap()`):
either it returns a value, or it aborts with a panic message. -/
inductive RustOutcome (α : Type) where
  | returns (value : α) : RustOutcome α
  | panics (message : String) : RustOutcome α
deriving DecidableEq, Repr

/-- Rust's `str::parse::<u64>()` as used on the `Delta-Table-Version` header:
an optional leading `+`, then at least one ASCII digit, with the value bounded
by `u64::MAX`. -/
def parse_u64 (s : String) : Option Nat :=
  let t :=
    match s.data with
    | '+' :: rest => rest
    | cs => cs
  if t.isEmpty then none
  else if t.all Char.isDigit then
    let v := t.foldl (fun acc c => acc * 10 + (c.toNat - 48)) 0
    if v < 2 ^ 64 then some v else none
  else none

/-- A response to the table-version endpoint as `get_table_version_raw`
observes it: a status code and the optional `Delta-Table-Version` header
value. -/
structure VersionResponse where
  status : Nat
  delta_table_version_header : Option String
deriving DecidableEq, Repr

/-- The `match status { ... }` expression of `get_table_version_raw`
(`src/client.rs`, lines 337–355): on 200 the header is read and parsed as
`u64` with a `ParseResponse` error when absent or unparseable; 4xx and 500
become `Internal "ugh"`; anything else `Internal "unknown server response"`. -/
def table_version_match (response : VersionResponse) : Result Nat :=
  if response.status = 200 then
    match response.delta_table_version_header.bind parse_u64 with
    | some v => .ok v
    | none =>
      .error (DeltaSharingError.parse_response "parsing delta-table-version header failed")
  else if response.status ∈ [400, 401, 403, 404] then
    .error (DeltaSharingError.internal "ugh")
  else if response.status = 500 then
    .error (DeltaSharingError.internal "ugh")
  else .error (DeltaSharingError.internal "unknown server response")

/-- The response handling of `get_table_version_raw` as written
(`src/client.rs`, lines 333–357): the `match` above appears in statement
position, so its value is computed and discarded (the trailing `;`), after
which control reaches `todo!()`, which panics unconditionally. -/
def get_table_version_raw (response : VersionResponse) : RustOutcome (Result Nat) :=
  let _discarded := table_version_match response
  .panics "not yet implemented"

/-- Embedding of `impl From<reqwest::Error> for DeltaSharingError` (`src/client.rs`, lines
529–534, marked `// TODO`): every transport error is wrapped as
`DeltaSharingError::client(StatusCode::INTERNAL_SERVER_ERROR, "", e.to_string())`;
`message` stands for the transport error's display string. -/
def from_reqwest_error (message : String) : DeltaSharingError :=
  DeltaSharingError.client 500 "" message

/-- Embedding of `BearerToken` from `src/profile.rs`, instants as signed timestamps. -/
structure BearerToken where
  token : String
  expiration_time : Option Int
deriving DecidableEq, Repr

/-- Embedding of `BearerToken::new`. -/
def BearerToken.new (token : String) (expiration_time : Option Int) : BearerToken :=
  ⟨token, expiration_time⟩

/-- Embedding of `BearerToken::has_expired` (`src/profile.rs`, lines 336–342), with the
clock reading `Utc::now()` passed explicitly:
`expiration_time < Utc::now()` when set, `false` otherwise. -/
def BearerToken.has_expired (b : BearerToken) (now : Int) : Bool :=
  match b.expiration_time with
  | some expiration_time => expiration_time < now
  | none => false

/-- A parsed `url::Url` value (opaque here; only identity matters). -/
structure Url where
  raw : String
deriving DecidableEq, Repr

/-- Embedding of `ProfileType` from `src/profile.rs`. -/
inductive ProfileType where
  | BearerToken (token : BearerToken) : ProfileType
deriving DecidableEq, Repr

/-- Embedding of `ProfileType::new_bearer_token`. -/
def ProfileType.new_bearer_token (token : String) (expiration_time : Option Int) :
    ProfileType :=
  .BearerToken (BearerToken.new token expiration_time)

/-- Embedding of `Profile` from `src/profile.rs`. -/
structure Profile where
  share_credentials_version : Nat
  endpoint : Url
  profile_type : ProfileType
deriving DecidableEq, Repr

/-- Embedding of `Profile::from_profile_type`. -/
def Profile.from_profile_type (share_credentials_version : Nat) (endpoint : Url)
    (profile_type : ProfileType) : Profile :=
  ⟨share_credentials_version, endpoint, profile_type⟩

/-- Embedding of `Profile::new_bearer_token` (`src/profile.rs`, lines 182–194): the `url`
crate's parser is the abstract collaborator `parse_url` (`none` = parse
failure), and `Url::parse(&endpoint.into()).unwrap()` panics on failure. -/
def Profile.new_bearer_token (parse_url : String → Option Url) (version : Nat)
    (endpoint : String) (bearer_token : String) (expiration_time : Option Int) :
    RustOutcome Profile :=
  match parse_url endpoint with
  | some url =>
    .returns ⟨version, url, ProfileType.new_bearer_token bearer_token expiration_time⟩
  | none => .panics "called Result::unwrap() on an Err value"

/-- The profile-file payload (`ProfileFile` in `src/profile.rs`), after JSON
deserialization. -/
structure ProfileFile where
  share_credentials_version : Nat
  endpoint : String
  bearer_token : Option String
  expiration_time : Option Int
deriving DecidableEq, Repr

/-- The part of `Profile::try_from_path` (`src/profile.rs`, lines 80–102)
after the profile file has been read and deserialized: endpoint parsing maps
a bad URL to a `Profile`-kind error (messages abbreviated to their static
prefixes), then the version and bearer-token checks run. -/
def Profile.try_from_profile_file (parse_url : String → Option Url)
    (pf : ProfileFile) : Result Profile :=
  match parse_url pf.endpoint with
  | none => .error (DeltaSharingError.profile "Failed to parse endpoint URL in profile")
  | some endpoint =>
    if pf.share_credentials_version = 1 then
      match pf.bearer_token with
      | some token =>
        .ok (Profile.from_profile_type pf.share_credentials_version endpoint
          (ProfileType.new_bearer_token token pf.expiration_time))
      | none => .error (DeltaSharingError.profile "Bearer token is missing in profile file")
    else .error (DeltaSharingError.profile "Unsupported share credentials version")

/-- The path string built by `get_share_raw` (`src/client.rs`, line 180):
`format!("/shares/{share_name}")` — the name is interpolated verbatim, with
no percent-encoding.  Paths are modelled as character lists. -/
def get_share_raw_path (share_name : List Char) : List Char :=
  "/shares/".data ++ share_name

/-- The path string built by `list_tables_in_schema_raw` (`src/client.rs`,
lines 274–276): `format!("/shares/{share_name}/schemas/{schema_name}/tables")`,
again by verbatim interpolation. -/
def list_tables_in_schema_raw_path (share_name schema_name : List Char) :
    List Char :=
  "/shares/".data ++ share_name ++ "/schemas/".data ++ schema_name ++ "/tables".data

/-- Split a character list at every `'/'` (the fields of a path, as in
`Url::path_segments`). -/
def split_slash : List Char → List (List Char)
  | [] => [[]]
  | c :: cs =>
    if c = '/' then [] :: split_slash cs
    else
      match split_slash cs with
      | [] => [[c]]
      | seg :: rest => (c :: seg) :: rest

/-- The path segments of an absolute path: the fields after the leading
`'/'` (whose empty first field is dropped). -/
def path_segments (path : List Char) : List (List Char) :=
  (split_slash path).drop 1

/-- The numeric value of a hexadecimal digit. -/
def hex_val (c : Char) : Option Nat :=
  if '0' ≤ c ∧ c ≤ '9' then some (c.toNat - 48)
  else if 'A' ≤ c ∧ c ≤ 'F' then some (c.toNat - 55)
  else if 'a' ≤ c ∧ c ≤ 'f' then some (c.toNat - 87)
  else none

/-- Percent-decoding of a path segment: `%hh` becomes the coded character,
and an invalid escape is left as written. -/
def percent_decode : List Char → List Char
  | [] => []
  | '%' :: h1 :: h2 :: rest =>
    match hex_val h1, hex_val h2 with
    | some hi, some lo => Char.ofNat (16 * hi + lo) :: percent_decode rest
    | _, _ => '%' :: percent_decode (h1 :: h2 :: rest)
  | c :: rest => c :: percent_decode rest
termination_by l => l.length
decreasing_by all_goals simp [List.length_cons] <;> omega

end DeltaSharing

namespace DeltaSharing

/-- C1: the shared classifier `handle_response`, for every payload type and
deserializers: on 200 it returns the deserialized body (ParseResponse on
deserialization failure); on 400/401/403/404 a `ClientError` with that status
and the envelope's `errorCode` (ParseResponse fallback); on 500 a `ServerError`
likewise; on any other status an `Internal` error with message
"unknown server response", whose value is independent of the body and of both
deserializers, so the body is never parsed. -/
theorem handle_response_classifies {T : Type} (parseT : String → Option T)
    (parseErr : String → Option ErrorResponse) (body : String) :
    (handle_response parseT parseErr ⟨200, body⟩ =
      match parseT body with
      | some res => .ok res
      | none => .error (DeltaSharingError.parse_response "failed to parse server response")) ∧
    (∀ s, s ∈ [400, 401, 403, 404] →
      handle_response parseT parseErr ⟨s, body⟩ =
        match parseErr body with
        | some err => .error (DeltaSharingError.client s err.error_code err.message)
        | none => .error (DeltaSharingError.parse_response "failed to parse server response")) ∧
    (handle_response parseT parseErr ⟨500, body⟩ =
      match parseErr body with
      | some err => .error (DeltaSharingError.server 500 err.error_code err.message)
      | none => .error (DeltaSharingError.parse_response "failed to parse server response")) ∧
    (∀ s, s ∉ [200, 400, 401, 403, 404, 500] →
      handle_response parseT parseErr ⟨s, body⟩ =
        .error (DeltaSharingError.internal "unknown server response")) := by
  refine ⟨rfl, ?_, rfl, ?_⟩
  · intro s hs
    simp only [List.mem_cons, List.not_mem_nil, or_false] at hs
    rcases hs with h | h | h | h <;> subst h <;> rfl
  · intro s hs
    simp only [List.mem_cons, List.not_mem_nil, or_false, not_or] at hs
    obtain ⟨h200, h400, h401, h403, h404, h500⟩ := hs
    simp [handle_response, h200, h400, h401, h403, h404, h500]

/-- Witness for C1: the classifier evaluated at concrete inputs, including a
418 response, through `handle_response_classifies` itself. -/
theorem handle_response_classifies_witness :
    handle_response (fun b => if b = "7" then some (7 : Nat) else none)
      (fun b => if b = "e" then some ⟨"CODE", "msg"⟩ else none) ⟨418, "teapot"⟩ =
      .error (DeltaSharingError.internal "unknown server response") :=
  (handle_response_classifies (fun b => if b = "7" then some (7 : Nat) else none)
    (fun b => if b = "e" then some ⟨"CODE", "msg"⟩ else none) "teapot").2.2.2 418 (by decide)

/-- C2: `get_share` returns `some share` when the single-page fetch succeeds,
recovers a not-found error into `none`, surfaces every other error unchanged,
and `is_not_found` holds exactly for kind `ClientError` with status 404. -/
theorem get_share_not_found_recovery (res : Result GetShareResponse) :
    (∀ r, res = .ok r → get_share res = .ok (some r.share)) ∧
    (∀ e, res = .error e → e.is_not_found = true → get_share res = .ok none) ∧
    (∀ e, res = .error e → e.is_not_found = false → get_share res = .error e) ∧
    (∀ e : DeltaSharingError,
      e.is_not_found = true ↔ ∃ code, e.kind = .ClientError 404 code) := by
  refine ⟨?_, ?_, ?_, ?_⟩
  · rintro r rfl; rfl
  · rintro e rfl h; simp [get_share, h]
  · rintro e rfl h; simp [get_share, h]
  · intro e
    cases he : e.kind <;> simp [DeltaSharingError.is_not_found, he]

/-- Witness for C2: a 404 client error is converted into an absent value by
`get_share_not_found_recovery` applied at a concrete error. -/
theorem get_share_not_found_recovery_witness :
    get_share (.error (DeltaSharingError.client 404 "SHARE_NOT_FOUND" "m")) = .ok none :=
  (get_share_not_found_recovery
      (.error (DeltaSharingError.client 404 "SHARE_NOT_FOUND" "m"))).2.1
    (DeltaSharingError.client 404 "SHARE_NOT_FOUND" "m") rfl (by decide)

/-- C3: `has_next_page` is `is_start || (page_token present and non-empty)`;
it is true whenever `is_start` holds (so before the first fetch, whatever the
token field holds, as in both start constructors); after `set_page_token t`,
`is_start` is cleared and `has_next_page` is true iff `t` is present and
non-empty; `is_finished` is the exact negation. -/
theorem pagination_has_next_page_lifecycle (p : Pagination) (t : Option String)
    (m : Option Nat) :
    (p.has_next_page =
      (p.is_start || (p.page_token.isSome && (p.page_token != some "")))) ∧
    (p.is_start = true → p.has_next_page = true) ∧
    (Pagination.default.has_next_page = true ∧
      (Pagination.from_start m).has_next_page = true) ∧
    ((p.set_page_token t).is_start = false ∧
      (p.set_page_token t).has_next_page = (t.isSome && (t != some ""))) ∧
    (p.is_finished = !p.has_next_page) := by
  refine ⟨rfl, ?_, ⟨rfl, rfl⟩, ⟨rfl, rfl⟩, rfl⟩
  intro h
  simp [Pagination.has_next_page, h]

/-- Witness for C3: the lifecycle theorem applied at the default cursor with a
concrete token. -/
theorem pagination_has_next_page_lifecycle_witness :
    Pagination.default.has_next_page = true ∧
    (Pagination.default.set_page_token (some "tok")).has_next_page = true :=
  ⟨(pagination_has_next_page_lifecycle Pagination.default (some "tok") none).2.1 rfl,
    ((pagination_has_next_page_lifecycle Pagination.default (some "tok") none).2.2.2.1).2⟩

/-- Helper: the loop, started at any cursor and accumulator, appends the
script's pages in order, returns `ok` when the final cursor is finished, and
aborts with the server's error otherwise. -/
theorem aggregate_loop_runs_to {T : Type} (fetch : Pagination → Result (ListResponse T))
    (ps : List (ListResponse T)) :
    ∀ (p q : Pagination) (acc : List T), runs_to fetch p ps q →
      (q.is_finished = true →
        aggregate_loop fetch (ps.length + 1) p acc =
          some (.ok (acc ++ (ps.map ListResponse.items).flatten))) ∧
      (∀ e, q.is_finished = false → fetch q = .error e →
        aggregate_loop fetch (ps.length + 1) p acc = some (.error e)) := by
  induction ps with
  | nil =>
    rintro p q acc rfl
    constructor
    · intro hq
      simp [aggregate_loop, Pagination.is_finished] at hq ⊢
      simp [hq]
    · intro e hq hfetch
      simp [aggregate_loop, hq, hfetch]
  | cons page rest ih =>
    rintro p q acc ⟨hp, hfetch, hrest⟩
    have step :
        aggregate_loop fetch (rest.length + 1 + 1) p acc =
          aggregate_loop fetch (rest.length + 1)
            (p.set_page_token page.next_page_token) (acc ++ page.items) := by
      simp [aggregate_loop, hp, hfetch]
    obtain ⟨hok, herr⟩ :=
      ih (p.set_page_token page.next_page_token) q (acc ++ page.items) hrest
    constructor
    · intro hq
      simp only [List.length_cons, step, hok hq, List.map_cons, List.flatten_cons,
        List.append_assoc]
    · intro e hq hfetch'
      simp only [List.length_cons, step, herr e hq hfetch']

/-- C4: each aggregating list operation is the generic driver `aggregate`;
when the server answers with the successful pages `ps` in fetch order and the
loop then terminates, the result is the in-order concatenation of the pages'
items; when any page fetch fails, the whole operation returns that error with
no partial items retained. -/
theorem list_aggregation_all_or_nothing {T : Type}
    (fetch : Pagination → Result (ListResponse T)) (ps : List (ListResponse T))
    (q : Pagination) :
    (runs_to fetch Pagination.default ps q → q.is_finished = true →
      aggregate fetch (ps.length + 1) =
        some (.ok ((ps.map ListResponse.items).flatten))) ∧
    (∀ e, runs_to fetch Pagination.default ps q → q.is_finished = false →
      fetch q = .error e →
      aggregate fetch (ps.length + 1) = some (.error e)) ∧
    list_shares = @aggregate Share ∧
    list_schemas = @aggregate Schema ∧
    list_tables_in_share = @aggregate Table ∧
    list_tables_in_schema = @aggregate Table := by
  refine ⟨?_, ?_, rfl, rfl, rfl, rfl⟩
  · intro hruns hq
    simpa using (aggregate_loop_runs_to fetch ps Pagination.default q [] hruns).1 hq
  · intro e hruns hq hfetch
    exact (aggregate_loop_runs_to fetch ps Pagination.default q [] hruns).2 e hq hfetch

/-- Witness for C4: pages `[A,B]` then `[C]` (final page with an empty token)
aggregate to `[A,B,C]`, via `list_aggregation_all_or_nothing` at a concrete
server. -/
theorem list_aggregation_all_or_nothing_witness :
    list_shares two_page_fetch 3 =
      some (.ok [⟨none, "A"⟩, ⟨none, "B"⟩, ⟨none, "C"⟩]) :=
  (list_aggregation_all_or_nothing two_page_fetch
      [⟨[⟨none, "A"⟩, ⟨none, "B"⟩], some "t1"⟩, ⟨[⟨none, "C"⟩], some ""⟩]
      ((Pagination.default.set_page_token (some "t1")).set_page_token (some ""))).1
    ⟨by decide, rfl, by decide, rfl, rfl⟩ (by decide)

/-- Helper for C8: against the adversarial server the loop never leaves its
running state, whatever the fuel, from any unfinished cursor. -/
theorem adversarial_fetch_never_returns (n : Nat) :
    ∀ (p : Pagination) (acc : List Share), p.is_finished = false →
      aggregate_loop adversarial_fetch n p acc = none := by
  induction n with
  | zero => intro p acc _; rfl
  | succ n ih =>
    intro p acc h
    simp only [aggregate_loop, h, adversarial_fetch, Bool.false_eq_true,
      if_false, List.append_nil]
    exact ih _ _ (by simp [Pagination.set_page_token, Pagination.is_finished,
      Pagination.has_next_page])

/-- C8 counterexample: against the server that always returns a non-empty
next page token, the aggregation never returns at all — for no iteration
count does the loop produce a result, so no iteration cap raises an
`Internal` error. -/
theorem aggregation_cap_counterexample :
    ¬ ∃ (n : Nat) (r : Result (List Share)),
        aggregate adversarial_fetch n = some r := by
  rintro ⟨n, r, h⟩
  have hnone : aggregate adversarial_fetch n = none :=
    adversarial_fetch_never_returns n Pagination.default [] (by decide)
  rw [hnone] at h
  exact Option.noConfusion h

/-- C8 (amended): the pagination driver enforces no iteration or wall-clock
cap: against a server whose every page carries a non-empty next page token,
the loop is still running after any number of iterations, returning neither
items nor an `Internal` error. -/
theorem aggregation_no_iteration_cap (n : Nat) :
    aggregate adversarial_fetch n = none :=
  adversarial_fetch_never_returns n Pagination.default [] (by decide)

/-- C5: `get_table_version_raw` as written never returns a version: the
status `match` (whose 200 arm does read and parse the `Delta-Table-Version`
header, yielding 42 for header value "42" and a `ParseResponse` error when
the header is missing) is computed in statement position and discarded, after
which the function unconditionally panics at `todo!()` — on the failing input
(status 200, header "42") included. -/
theorem get_table_version_raw_always_panics (response : VersionResponse) :
    get_table_version_raw response = .panics "not yet implemented" ∧
    get_table_version_raw ⟨200, some "42"⟩ = .panics "not yet implemented" ∧
    table_version_match ⟨200, some "42"⟩ = .ok 42 ∧
    table_version_match ⟨200, none⟩ =
      .error (DeltaSharingError.parse_response "parsing delta-table-version header failed") :=
  ⟨rfl, rfl, rfl, rfl⟩

/-- C6: the `From<reqwest::Error>` conversion (the only route by which a
transport failure enters the error taxonomy) classifies every transport error
as `ClientError { status: 500, code: "" }` — the `ErrorKind.Request` variant
is never produced. -/
theorem from_reqwest_error_kind (message : String) :
    from_reqwest_error message =
      DeltaSharingError.new (.ClientError 500 "") message ∧
    (from_reqwest_error "error sending request: connection timed out").kind =
      .ClientError 500 "" :=
  ⟨rfl, rfl⟩

/-- C9: `has_expired` is false when no expiration time is set; with an
expiration time set it is false strictly before that instant, true strictly
after it, and true exactly when the instant is strictly in the past. -/
theorem bearer_token_has_expired_spec (b : BearerToken) (now t : Int) :
    (b.expiration_time = none → b.has_expired now = false) ∧
    (b.expiration_time = some t →
      (now < t → b.has_expired now = false) ∧
      (t < now → b.has_expired now = true) ∧
      (b.has_expired now = true ↔ t < now)) := by
  constructor
  · intro h; simp [BearerToken.has_expired, h]
  · intro h
    refine ⟨fun hlt => ?_, fun hlt => ?_, ?_⟩
    · simp [BearerToken.has_expired, h]; omega
    · simp [BearerToken.has_expired, h, hlt]
    · simp [BearerToken.has_expired, h]

/-- Witness for C9: a token expiring at instant 10, inspected at instants 5
and 20, through `bearer_token_has_expired_spec`. -/
theorem bearer_token_has_expired_spec_witness :
    (BearerToken.new "token" (some 10)).has_expired 5 = false ∧
    (BearerToken.new "token" (some 10)).has_expired 20 = true ∧
    (BearerToken.new "token" none).has_expired 20 = false :=
  ⟨((bearer_token_has_expired_spec (BearerToken.new "token" (some 10)) 5 10).2
      rfl).1 (by decide),
    ((bearer_token_has_expired_spec (BearerToken.new "token" (some 10)) 20 10).2
      rfl).2.1 (by decide),
    (bearer_token_has_expired_spec (BearerToken.new "token" none) 20 0).1 rfl⟩

/-- C10: `Profile::new_bearer_token` panics (via `Url::parse(..).unwrap()`)
exactly when the endpoint string does not parse as a URL, and returns the
profile otherwise; `Profile::try_from_path` turns the same condition into a
`Profile`-kind error instead. -/
theorem new_bearer_token_panics_on_bad_endpoint (parse_url : String → Option Url)
    (version : Nat) (endpoint bearer_token : String) (expiration_time : Option Int)
    (pf : ProfileFile) :
    (parse_url endpoint = none →
      Profile.new_bearer_token parse_url version endpoint bearer_token expiration_time =
        .panics "called Result::unwrap() on an Err value") ∧
    (∀ u, parse_url endpoint = some u →
      Profile.new_bearer_token parse_url version endpoint bearer_token expiration_time =
        .returns ⟨version, u, ProfileType.new_bearer_token bearer_token expiration_time⟩) ∧
    (parse_url pf.endpoint = none →
      Profile.try_from_profile_file parse_url pf =
        .error (DeltaSharingError.profile "Failed to parse endpoint URL in profile")) := by
  refine ⟨?_, ?_, ?_⟩
  · intro h; simp [Profile.new_bearer_token, h]
  · intro u h; simp [Profile.new_bearer_token, h]
  · intro h; simp [Profile.try_from_profile_file, h]

/-- Witness for C10: a parser that rejects everything makes the constructor
panic and `try_from_path`'s endpoint handling produce a `Profile` error, via
`new_bearer_token_panics_on_bad_endpoint` at concrete inputs. -/
theorem new_bearer_token_panics_on_bad_endpoint_witness :
    Profile.new_bearer_token (fun _ => none) 1 "not a url" "tok" none =
      .panics "called Result::unwrap() on an Err value" ∧
    Profile.try_from_profile_file (fun _ => none) ⟨1, "not a url", some "tok", none⟩ =
      .error (DeltaSharingError.profile "Failed to parse endpoint URL in profile") :=
  ⟨(new_bearer_token_panics_on_bad_endpoint (fun _ => none) 1 "not a url" "tok" none
      ⟨1, "not a url", some "tok", none⟩).1 rfl,
    (new_bearer_token_panics_on_bad_endpoint (fun _ => none) 1 "not a url" "tok" none
      ⟨1, "not a url", some "tok", none⟩).2.2 rfl⟩

/-- Helper: splitting starts a new field at a leading `'/'`. -/
theorem split_slash_leading (ys : List Char) :
    split_slash ('/' :: ys) = [] :: split_slash ys := by
  simp [split_slash]

/-- Helper: a slash-free prefix is one whole field. -/
theorem split_slash_no_slash (xs : List Char) (h : ∀ c ∈ xs, c ≠ '/') :
    split_slash xs = [xs] := by
  induction xs with
  | nil => rfl
  | cons c rest ih =>
    have hc : c ≠ '/' := h c (by simp)
    have hr := ih fun x hx => h x (by simp [hx])
    simp [split_slash, hc, hr]

/-- Helper: splitting past a slash-free prefix and a `'/'` yields that prefix
as a field followed by the split of the remainder. -/
theorem split_slash_append (xs ys : List Char) (h : ∀ c ∈ xs, c ≠ '/') :
    split_slash (xs ++ '/' :: ys) = xs :: split_slash ys := by
  induction xs with
  | nil => simp [split_slash]
  | cons c rest ih =>
    have hc : c ≠ '/' := h c (by simp)
    have hr := ih fun x hx => h x (by simp [hx])
    simp [split_slash, hc, hr]

/-- Helper: decoding a `'%'`-free segment is the identity. -/
theorem percent_decode_no_escape (xs : List Char) (h : ∀ c ∈ xs, c ≠ '%') :
    percent_decode xs = xs := by
  induction xs with
  | nil => rw [percent_decode.eq_def]
  | cons c rest ih =>
    have hc : c ≠ '%' := h c (by simp)
    have hr := ih fun x hx => h x (by simp [hx])
    rw [percent_decode.eq_def]
    rcases rest with _ | ⟨d, _ | ⟨e, rest2⟩⟩ <;> simp [hc, hr]

/-- C7 counterexample: for the share name `"a/b"` the path built by
`get_share_raw` splits into the segments `shares`, `a`, `b`, whose decodings
are not the supplied name — the name is not percent-encoded before
insertion. -/
theorem url_percent_encoding_counterexample :
    (path_segments (get_share_raw_path ['a', '/', 'b'])).map percent_decode ≠
      ["shares".data, ['a', '/', 'b']] := by
  have hseg : path_segments (get_share_raw_path ['a', '/', 'b']) =
      ["shares".data, ['a'], ['b']] := by decide
  rw [hseg, List.map_cons, List.map_cons, List.map_cons, List.map_nil,
    percent_decode_no_escape _ (by decide), percent_decode_no_escape _ (by decide),
    percent_decode_no_escape _ (by decide)]
  decide

/-- C7 (amended): share/schema/table names are interpolated into the path
verbatim, with no percent-encoding; consequently only names free of the
reserved characters `'/'`, `'%'`, `'?'`, `'#'` produce path segments that
decode back to exactly the supplied names (a name containing `'/'` splits
into several segments, as the counterexample shows). -/
theorem url_naive_interpolation_round_trip (share_name schema_name : List Char)
    (h1 : ∀ c ∈ share_name, c ≠ '/' ∧ c ≠ '%' ∧ c ≠ '?' ∧ c ≠ '#')
    (h2 : ∀ c ∈ schema_name, c ≠ '/' ∧ c ≠ '%' ∧ c ≠ '?' ∧ c ≠ '#') :
    (path_segments (get_share_raw_path share_name)).map percent_decode =
      ["shares".data, share_name] ∧
    (path_segments (list_tables_in_schema_raw_path share_name schema_name)).map
        percent_decode =
      ["shares".data, share_name, "schemas".data, schema_name, "tables".data] := by
  have hshares : ∀ c ∈ ("shares".data : List Char), c ≠ '/' := by decide
  have h1s : ∀ c ∈ share_name, c ≠ '/' := fun c hc => (h1 c hc).1
  have h1p : ∀ c ∈ share_name, c ≠ '%' := fun c hc => (h1 c hc).2.1
  have h2s : ∀ c ∈ schema_name, c ≠ '/' := fun c hc => (h2 c hc).1
  have h2p : ∀ c ∈ schema_name, c ≠ '%' := fun c hc => (h2 c hc).2.1
  constructor
  · have ep : get_share_raw_path share_name =
        '/' :: ("shares".data ++ '/' :: share_name) := rfl
    rw [path_segments, ep, split_slash_leading, split_slash_append _ _ hshares,
      split_slash_no_slash _ h1s]
    simp [percent_decode_no_escape _ h1p,
      percent_decode_no_escape ("shares".data) (by decide)]
  · have ep : list_tables_in_schema_raw_path share_name schema_name =
        '/' :: ("shares".data ++ '/' :: (share_name ++ '/' ::
          ("schemas".data ++ '/' :: (schema_name ++ '/' :: "tables".data)))) := by
      simp only [list_tables_in_schema_raw_path, List.append_assoc]
      rfl
    rw [path_segments, ep, split_slash_leading, split_slash_append _ _ hshares,
      split_slash_append _ _ h1s, split_slash_append _ _ (by decide),
      split_slash_append _ _ h2s, split_slash_no_slash _ (by decide)]
    simp [percent_decode_no_escape _ h1p, percent_decode_no_escape _ h2p,
      percent_decode_no_escape ("shares".data) (by decide),
      percent_decode_no_escape ("schemas".data) (by decide),
      percent_decode_no_escape ("tables".data) (by decide)]

/-- Witness for C7: reserved-character-free names round-trip, via
`url_naive_interpolation_round_trip` at concrete names. -/
theorem url_naive_interpolation_round_trip_witness :
    (path_segments (get_share_raw_path "my-share".data)).map percent_decode =
      ["shares".data, "my-share".data] ∧
    (path_segments
        (list_tables_in_schema_raw_path "my-share".data "my-schema".data)).map
        percent_decode =
      ["shares".data, "my-share".data, "schemas".data, "my-schema".data,
        "tables".data] :=
  url_naive_interpolation_round_trip "my-share".data "my-schema".data
    (by decide) (by decide)

end DeltaSharing
